/-
Verification of the Supplier-Predictor backend (src/backend/pipeline.py and
src/backend/utils.py) against its natural-language specification.

The Python code is shallowly embedded in Lean 4:
  - `haversine` (pipeline.py lines 32-45) is embedded over the reals, with
    `atan2` given the C99 / Python `math.atan2` definition;
  - the risk fetchers (pipeline.py lines 47-79) become total functions over
    an explicit network-response argument (success payload or failure) and
    explicit arguments for the `random.uniform` draws;
  - the pipeline and query path (pipeline.py lines 93-245) become pure
    functions over an explicit file-system state `FS`; pandas DataFrames
    become lists of record structures with exact rational (ℚ) arithmetic;
  - the opaque joblib model artifact becomes a function from the five
    FEATURES to a probability, and the trained model / enriched rows
    produced by the (randomized, network-calling) pipeline are abstracted
    as parameters `train` / `enrich`.
-/
import Mathlib

namespace SupplierPredictor

/-! ## Geometry: haversine (pipeline.py lines 32-45, utils.py lines 37-42) -/

/-- Python `math.radians`: degrees to radians. -/
noncomputable def radians (x : ℝ) : ℝ := x * Real.pi / 180

/-- Python `math.atan2`, with the C99 semantics. -/
noncomputable def atan2 (y x : ℝ) : ℝ :=
  if 0 < x then Real.arctan (y / x)
  else if x < 0 then
    if 0 ≤ y then Real.arctan (y / x) + Real.pi else Real.arctan (y / x) - Real.pi
  else
    if 0 < y then Real.pi / 2 else if y < 0 then -(Real.pi / 2) else 0

/-- Function `haversine(lat1, lon1, lat2, lon2)` from pipeline.py lines 32-45:
spherical-Earth great-circle distance, radius 6371 km. -/
noncomputable def haversine (lat1 lon1 lat2 lon2 : ℝ) : ℝ :=
  let lat1_rad := radians lat1
  let lon1_rad := radians lon1
  let lat2_rad := radians lat2
  let lon2_rad := radians lon2
  let dlon := lon2_rad - lon1_rad
  let dlat := lat2_rad - lat1_rad
  let a := Real.sin (dlat / 2) ^ 2 +
    Real.cos lat1_rad * Real.cos lat2_rad * Real.sin (dlon / 2) ^ 2
  let c := 2 * atan2 (Real.sqrt a) (Real.sqrt (1 - a))
  6371 * c

/-! ## Risk providers (pipeline.py lines 47-79)

The network call and the `random.uniform` draws are made explicit arguments:
a `WeatherResp`/`WarResp` value is either the parsed success payload or
`fail` (any exception in the `try` block), and each `random.uniform(a, b)`
draw is an argument constrained to `[a, b]` in the theorems. -/

/-- Outcome of the OpenWeather request in `fetch_weather_risk`: the parsed
main condition string, or any exception (network error, missing field). -/
inductive WeatherResp where
  | ok (main : String)
  | fail
deriving DecidableEq

/-- Outcome of the ACLED request in `fetch_war_risk`: the parsed event
count, or any exception. -/
inductive WarResp where
  | ok (count : ℕ)
  | fail
deriving DecidableEq

/-- Python `round(q, 1)`: round to one decimal place. (Python uses
rounding half to even and the Lean `round` rounds half up; they agree except at
exact midpoints, and every bound proved below holds for either.) -/
def round1 (q : ℚ) : ℚ := (round (10 * q) : ℤ) / 10

/-- Function `fetch_weather_risk` from pipeline.py lines 47-63. `u` is the
`random.uniform(0.6, 0.9)` draw of the fallback path. -/
def fetch_weather_risk (resp : WeatherResp) (u : ℚ) : ℚ :=
  match resp with
  | .ok main =>
    if main = "Thunderstorm" ∨ main = "Extreme" ∨ main = "Tornado" then 95/100
    else if main = "Rain" ∨ main = "Snow" then 7/10
    else if main = "Clouds" then 5/10
    else 3/10
  | .fail => round1 u

/-- Function `fetch_war_risk` from pipeline.py lines 65-79. `jitter` is the
`random.uniform(0, 0.1)` draw of the success path and `u` the
`random.uniform(0.4, 0.8)` draw of the fallback path. -/
def fetch_war_risk (resp : WarResp) (jitter u : ℚ) : ℚ :=
  match resp with
  | .ok count => min 1 ((count : ℚ) * (5/100) + jitter)
  | .fail => round1 u

/-! ## Data model (pipeline.py lines 16-29, 105-148, 167-177)

Rows carry the columns the embedded code paths read; numeric columns are
exact rationals. `Model` abstracts the opaque joblib XGBoost artifact as a
map from the five FEATURES `[LeadTimeDays, PastReliability, Capacity,
WeatherRisk, WarRisk]` to the `predict_proba` positive-class probability. -/

/-- A raw supplier row after the column renames of pipeline.py
lines 108-118 (columns the pipeline reads). -/
structure RawRow where
  product : String
  city : String
  country : String
  latitude : ℚ
  longitude : ℚ
  leadTimeDays : ℚ
  pastReliability : ℚ
  capacity : ℚ
deriving DecidableEq, Repr

/-- A row of the persisted enriched table
`processed/supplier_dataset_with_risk.csv` (columns the query path
reads). -/
structure ProcRow where
  product : String
  city : String
  country : String
  latitude : ℚ
  longitude : ℚ
  leadTimeDays : ℚ
  pastReliability : ℚ
  capacity : ℚ
  weatherRisk : ℚ
  warRisk : ℚ
  failure : ℤ
deriving DecidableEq, Repr

/-- The opaque trained model: `predict_proba(df[FEATURES])[:, 1]` as a
function of the five FEATURES of a row. -/
def Model : Type := ℚ → ℚ → ℚ → ℚ → ℚ → ℚ

/-- Apply a model to the FEATURES of a row, in the fixed FEATURES order. -/
def predictProb (m : Model) (r : ProcRow) : ℚ :=
  m r.leadTimeDays r.pastReliability r.capacity r.weatherRisk r.warRisk

/-- A row of `data/warehouses.csv`. -/
structure Warehouse where
  city : String
  country : String
  latitude : ℚ
  longitude : ℚ
deriving DecidableEq, Repr

/-- The file-system state the pipeline and query path touch: the raw
dataset, the processed table, the model artifact (each `none` when the
file does not exist) and the warehouses dataset. -/
structure FS where
  rawCsv : Option (List RawRow)
  processedCsv : Option (List ProcRow)
  modelFile : Option Model
  warehousesCsv : List Warehouse

/-! ## Failure-label synthesis (pipeline.py lines 139-144) -/

/-- The training label of pipeline.py lines 139-144: `Failure = 1` iff
`WeatherRisk > 0.7` or `WarRisk > 0.7` or `PastReliability < 0.7` or the
per-row `random.random() < 0.05` event (`randEvent`) fired, as an `Int`
(`astype(int)`). -/
def failureLabel (weatherRisk warRisk pastReliability : ℚ)
    (randEvent : Bool) : ℤ :=
  if weatherRisk > 7/10 ∨ warRisk > 7/10 ∨ pastReliability < 7/10 ∨
      randEvent = true then 1 else 0

/-- Modelled from the words of the claim, for comparison with `failureLabel`:
a label that additionally fires when a weighted combination (weights
`w1, w2, w3`) of `1 − Reliability`, `WeatherRisk + WarRisk` and
`1 − Capacity/max(Capacity)` (`capRatio` being `Capacity/max(Capacity)`)
exceeds the fixed threshold `0.5`. -/
def claimFailureLabel (w1 w2 w3 : ℚ) (weatherRisk warRisk pastReliability
    capRatio : ℚ) (randEvent : Bool) : ℤ :=
  if w1 * (1 - pastReliability) + w2 * (weatherRisk + warRisk) +
      w3 * (1 - capRatio) > 1/2 ∨ weatherRisk > 7/10 ∨ warRisk > 7/10 ∨
      pastReliability < 7/10 ∨ randEvent = true then 1 else 0

/-! ## run_pipeline (pipeline.py lines 93-153) -/

/-- Function `run_pipeline` from pipeline.py lines 93-153 over the file-system
state. The enrichment of lines 105-145 (noise injection, clamping, the
per-row network fetches and the label synthesis — all randomized and
network-dependent) is abstracted as `enrich`, and the XGBoost fit of
`train_model` as `train`. If the raw dataset is missing the code raises
`FileNotFoundError` before any processing; otherwise it writes the
enriched table and then the trained model. -/
def runPipelineFS (enrich : List RawRow → List ProcRow)
    (train : List ProcRow → Model) (fs : FS) : FS × Except String Unit :=
  match fs.rawCsv with
  | none => (fs, .error "Raw dataset not found")
  | some raw =>
    let dfp := enrich raw
    ({ fs with processedCsv := some dfp, modelFile := some (train dfp) },
      .ok ())

/-! ## Query path: get_best_suppliers (pipeline.py lines 156-245) -/

/-- Pandas `Series.min()` over a list (used on the nonempty `df` columns). -/
def listMin : List ℚ → ℚ
  | [] => 0
  | x :: xs => xs.foldl min x

/-- Pandas `Series.max()` over a list. -/
def listMax : List ℚ → ℚ
  | [] => 0
  | x :: xs => xs.foldl max x

/-- The `1e-9` epsilon added to the normalization denominators
(pipeline.py lines 226-227). -/
def eps : ℚ := 1 / 1000000000

/-- A processed row with the `FailureProb` and `DistanceKM` columns added
(pipeline.py lines 217-218). -/
structure ScoredRow extends ProcRow where
  failureProb : ℚ
  distanceKM : ℚ
deriving DecidableEq, Repr

/-- A scored row with the `RiskNorm`, `DistNorm` and `CombinedScore`
columns added (pipeline.py lines 226-229). -/
structure NormedRow extends ScoredRow where
  riskNorm : ℚ
  distNorm : ℚ
  combinedScore : ℚ
deriving DecidableEq, Repr

/-- The min-max normalization formula shared by lines 226-227 of
pipeline.py: the epsilon-guarded quotient when max ≠ min, the scalar 0
otherwise. -/
def normVal (minv maxv x : ℚ) : ℚ :=
  if maxv - minv ≠ 0 then (x - minv) / (maxv - minv + eps) else 0

/-- Pipeline.py lines 220-229: min-max normalize `FailureProb` and
`DistanceKM` over the whole row set and add
`CombinedScore = 0.7·RiskNorm + 0.3·DistNorm`. -/
def addNorms (rows : List ScoredRow) : List NormedRow :=
  let minFailProb := listMin (rows.map (fun r => r.failureProb))
  let maxFailProb := listMax (rows.map (fun r => r.failureProb))
  let minDistKm := listMin (rows.map (fun r => r.distanceKM))
  let maxDistKm := listMax (rows.map (fun r => r.distanceKM))
  rows.map (fun r =>
    let rn := normVal minFailProb maxFailProb r.failureProb
    let dn := normVal minDistKm maxDistKm r.distanceKM
    { toScoredRow := r, riskNorm := rn, distNorm := dn,
      combinedScore := 7/10 * rn + 3/10 * dn })

/-- The sort key of `get_best_for_product` (pipeline.py line 234):
`CombinedScore` ascending, ties broken by `PastReliability` descending. -/
def scoreRelLe (a b : NormedRow) : Bool :=
  decide (a.combinedScore < b.combinedScore) ||
    (decide (a.combinedScore = b.combinedScore) &&
      decide (b.pastReliability ≤ a.pastReliability))

/-- Function `get_best_for_product` from pipeline.py lines 232-234:
`sort_values(["CombinedScore", "PastReliability"], ascending=[True, False])
.head(1)`. -/
def get_best_for_product (group : List NormedRow) : List NormedRow :=
  (group.mergeSort scoreRelLe).take 1

/-- Pandas `Series.unique().tolist()`: the distinct values in order of
first occurrence, with an accumulator of values already seen. -/
def uniqueFirstAux {α : Type} [DecidableEq α] (seen : List α) :
    List α → List α
  | [] => []
  | x :: xs =>
    if x ∈ seen then uniqueFirstAux seen xs
    else x :: uniqueFirstAux (x :: seen) xs

/-- Pandas `Series.unique().tolist()`. -/
def uniqueFirst {α : Type} [DecidableEq α] (l : List α) : List α :=
  uniqueFirstAux [] l

/-- The group keys of `df.groupby("Product")` — distinct products, in
sorted order as pandas sorts group keys. -/
def productKeys (rows : List NormedRow) : List String :=
  (uniqueFirst (rows.map (fun r => r.product))).mergeSort
    (fun a b => decide (a ≤ b))

/-- Pandas `df.groupby("Product").apply(get_best_for_product)` (pipeline.py
line 236): one `head(1)` per product group, concatenated. -/
def bestByProduct (rows : List NormedRow) : List NormedRow :=
  (productKeys rows).flatMap (fun p =>
    get_best_for_product (rows.filter (fun r => r.product == p)))

/-- Python truthiness test `dc_city and dc_city in unique_cities` of
pipeline.py line 182 (`None` and the empty string are falsy). -/
def validDcCity (dc_city : Option String) (cities : List String) : Bool :=
  match dc_city with
  | none => false
  | some c => (!(c == "")) && cities.contains c

/-- The distribution-center resolution of pipeline.py lines 179-214: the
explicit `dc_city` when it is a (truthy) member of the India warehouse
cities, otherwise the first India warehouse city not coinciding with any
supplier city; `none` when no candidate exists (`unique_cities` empty, or
every candidate overlaps a supplier city) — the two early returns of the code,
which carry identical payloads. -/
def resolveDC (dc_city : Option String) (uniqueCities : List String)
    (india : List Warehouse) (supplierCities : List String) :
    Option (ℚ × ℚ) :=
  if validDcCity dc_city uniqueCities then
    match dc_city with
    | some c =>
      match india.find? (fun w => w.city == c) with
      | some w => some (w.latitude, w.longitude)
      | none => none
    | none => none
  else if uniqueCities.isEmpty then none
  else
    let nonOverlapping := uniqueCities.filter
      (fun city => !(supplierCities.contains city))
    match nonOverlapping.head? with
    | some c =>
      match india.find? (fun w => w.city == c) with
      | some w => some (w.latitude, w.longitude)
      | none => none
    | none => none

/-- Field `all_suppliers` in the returned dict: the plain processed table on the
early-return paths, the fully scored table on the success path. -/
inductive AllRows where
  | plain (rows : List ProcRow)
  | scored (rows : List NormedRow)
deriving DecidableEq, Repr

/-- The dict returned by `get_best_suppliers`. -/
structure QueryResult where
  best_suppliers : List NormedRow
  all_suppliers : AllRows
  unique_cities : List String
  warehouses : List Warehouse
deriving DecidableEq, Repr

/-- Variable `india_warehouses_df` of pipeline.py line 174. -/
def indiaWarehouses (warehousesDf : List Warehouse) : List Warehouse :=
  warehousesDf.filter (fun w => w.country == "India")

/-- Variable `unique_cities` of pipeline.py line 176. -/
def uniqueCitiesOf (warehousesDf : List Warehouse) : List String :=
  uniqueFirst ((indiaWarehouses warehousesDf).map (fun w => w.city))

/-- Variable `supplier_cities` of pipeline.py line 188. -/
def supplierCitiesOf (df : List ProcRow) : List String :=
  uniqueFirst (df.map (fun r => r.city))

/-- The body of `get_best_suppliers` after the artifacts are read
(pipeline.py lines 172-245): filter warehouses to India, resolve the DC,
and either return early with an empty best-supplier list or score,
normalize and rank. `dist` abstracts the real-valued `haversine` call of
line 218 so the query path stays executable over ℚ. -/
def queryBody (dist : ℚ → ℚ → ℚ → ℚ → ℚ) (dc_city : Option String)
    (df : List ProcRow) (warehousesDf : List Warehouse) (model : Model) :
    QueryResult :=
  match resolveDC dc_city (uniqueCitiesOf warehousesDf)
      (indiaWarehouses warehousesDf) (supplierCitiesOf df) with
  | none =>
    { best_suppliers := [], all_suppliers := .plain df,
      unique_cities := uniqueCitiesOf warehousesDf,
      warehouses := indiaWarehouses warehousesDf }
  | some (dcLat, dcLon) =>
    let scored := df.map (fun r =>
      { toProcRow := r, failureProb := predictProb model r,
        distanceKM := dist dcLat dcLon r.latitude r.longitude : ScoredRow })
    let normed := addNorms scored
    { best_suppliers := bestByProduct normed,
      all_suppliers := .scored normed,
      unique_cities := uniqueCitiesOf warehousesDf,
      warehouses := indiaWarehouses warehousesDf }

/-- Function `get_best_suppliers` from pipeline.py lines 156-245: run the pipeline
when the processed table or the model artifact is missing (exceptions
propagate), then read both artifacts and run the query body. -/
def getBestSuppliers (dist : ℚ → ℚ → ℚ → ℚ → ℚ)
    (enrich : List RawRow → List ProcRow) (train : List ProcRow → Model)
    (dc_city : Option String) (fs0 : FS) :
    FS × Except String QueryResult :=
  match (if fs0.processedCsv.isNone then runPipelineFS enrich train fs0
      else (fs0, .ok ())) with
  | (fs1, .error e) => (fs1, .error e)
  | (fs1, .ok _) =>
    match (if fs1.modelFile.isNone then runPipelineFS enrich train fs1
        else (fs1, .ok ())) with
    | (fs2, .error e) => (fs2, .error e)
    | (fs2, .ok _) =>
      match fs2.processedCsv, fs2.modelFile with
      | some df, some model =>
        (fs2, .ok (queryBody dist dc_city df fs2.warehousesCsv model))
      | _, _ => (fs2, .error "Processed table or model unreadable")

/-- Example supplier row used by the concrete witnesses. -/
def exProc (product city : String) (rel : ℚ) : ProcRow :=
  { product := product, city := city, country := "India", latitude := 10,
    longitude := 70, leadTimeDays := 5, pastReliability := rel,
    capacity := 500, weatherRisk := 1/2, warRisk := 1/2, failure := 0 }

/-- Example scored row used by the concrete witnesses. -/
def exScored (product city : String) (rel fp dk : ℚ) : ScoredRow :=
  { toProcRow := exProc product city rel, failureProb := fp,
    distanceKM := dk }

lemma arctan_nonneg_of_nonneg {x : ℝ} (h : 0 ≤ x) : 0 ≤ Real.arctan x := by
  have := Real.arctan_strictMono.monotone h
  rwa [Real.arctan_zero] at this

lemma atan2_nonneg {y x : ℝ} (hy : 0 ≤ y) (hx : 0 ≤ x) : 0 ≤ atan2 y x := by
  unfold atan2
  rcases lt_or_eq_of_le hx with hx1 | hx1
  · rw [if_pos hx1]
    exact arctan_nonneg_of_nonneg (div_nonneg hy (le_of_lt hx1))
  · rw [if_neg (by rw [← hx1]; exact lt_irrefl 0), if_neg (by rw [← hx1]; exact lt_irrefl 0)]
    rcases lt_or_eq_of_le hy with hy1 | hy1
    · rw [if_pos hy1]
      positivity
    · rw [if_neg (by rw [← hy1]; exact lt_irrefl 0), if_neg (by rw [← hy1]; exact lt_irrefl 0)]

lemma atan2_zero_one : atan2 0 1 = 0 := by
  unfold atan2
  rw [if_pos one_pos]
  norm_num [Real.arctan_zero]

lemma dist_expr_nonneg (a : ℝ) :
    0 ≤ 6371 * (2 * atan2 (Real.sqrt a) (Real.sqrt (1 - a))) := by
  have h := atan2_nonneg (Real.sqrt_nonneg a) (Real.sqrt_nonneg (1 - a))
  linarith

/-- C7: the haversine distance is (1) nonnegative for all coordinate pairs,
(2) zero when both points coincide, and (3) symmetric in its two points. -/
theorem C7_haversine_nonneg_zero_symm :
    (∀ lat1 lon1 lat2 lon2 : ℝ, 0 ≤ haversine lat1 lon1 lat2 lon2) ∧
    (∀ lat lon : ℝ, haversine lat lon lat lon = 0) ∧
    (∀ lat1 lon1 lat2 lon2 : ℝ,
      haversine lat1 lon1 lat2 lon2 = haversine lat2 lon2 lat1 lon1) := by
  refine ⟨?_, ?_, ?_⟩
  · intro lat1 lon1 lat2 lon2
    exact dist_expr_nonneg _
  · intro lat lon
    unfold haversine
    simp only [sub_self, zero_div, Real.sin_zero, ne_eq, OfNat.ofNat_ne_zero,
      not_false_eq_true, zero_pow, mul_zero, add_zero, Real.sqrt_zero, sub_zero,
      Real.sqrt_one, atan2_zero_one, mul_zero]
  · intro lat1 lon1 lat2 lon2
    unfold haversine
    have hdlat : Real.sin ((radians lat1 - radians lat2) / 2) ^ 2 =
        Real.sin ((radians lat2 - radians lat1) / 2) ^ 2 := by
      rw [show (radians lat1 - radians lat2) / 2 =
        -((radians lat2 - radians lat1) / 2) by ring, Real.sin_neg, neg_sq]
    have hdlon : Real.sin ((radians lon1 - radians lon2) / 2) ^ 2 =
        Real.sin ((radians lon2 - radians lon1) / 2) ^ 2 := by
      rw [show (radians lon1 - radians lon2) / 2 =
        -((radians lon2 - radians lon1) / 2) by ring, Real.sin_neg, neg_sq]
    simp only [hdlat, hdlon]
    ring_nf

lemma round1_bounds {q lo hi : ℚ} (hlo : lo ≤ q) (hhi : q ≤ hi)
    (hlo10 : (10 * lo : ℚ) = ((10 * lo).num : ℚ))
    (hhi10 : (10 * hi : ℚ) = ((10 * hi).num : ℚ)) :
    lo ≤ round1 q ∧ round1 q ≤ hi := by
  unfold round1
  have h1 : (10 * lo : ℚ) ≤ 10 * q := by linarith
  have h2 : (10 * q : ℚ) ≤ 10 * hi := by linarith
  have hr1 : (10 * lo).num ≤ round (10 * q) := by
    rw [round_eq]
    rw [Int.le_floor]
    rw [← hlo10]
    linarith
  have hr2 : round (10 * q) ≤ (10 * hi).num := by
    rw [round_eq]
    rw [Int.floor_le_iff]
    rw [← hhi10]
    linarith
  constructor
  · have h3 : (10 * lo : ℚ) ≤ ((round (10 * q) : ℤ) : ℚ) := by
      rw [hlo10]; exact_mod_cast hr1
    linarith
  · have h3 : ((round (10 * q) : ℤ) : ℚ) ≤ 10 * hi := by
      rw [hhi10]; exact_mod_cast hr2
    linarith

/-- C9: both risk fetchers always return a value in `[0,1]`, and on the
failure (exception) path `fetch_weather_risk` lands in its documented
fallback range `[0.6, 0.9]` and `fetch_war_risk` in `[0.4, 0.8]`, so the
enrichment step always receives a numeric value. -/
theorem C9_risk_fetchers_bounded (wresp : WeatherResp) (cresp : WarResp)
    (uw jitter uc : ℚ) (huw1 : 6/10 ≤ uw) (huw2 : uw ≤ 9/10)
    (hj1 : 0 ≤ jitter) (hj2 : jitter ≤ 1/10)
    (huc1 : 4/10 ≤ uc) (huc2 : uc ≤ 8/10) :
    (0 ≤ fetch_weather_risk wresp uw ∧ fetch_weather_risk wresp uw ≤ 1) ∧
    (0 ≤ fetch_war_risk cresp jitter uc ∧ fetch_war_risk cresp jitter uc ≤ 1) ∧
    (6/10 ≤ fetch_weather_risk .fail uw ∧ fetch_weather_risk .fail uw ≤ 9/10) ∧
    (4/10 ≤ fetch_war_risk .fail jitter uc ∧ fetch_war_risk .fail jitter uc ≤ 8/10) := by
  have hwfall := round1_bounds huw1 huw2 (by norm_num) (by norm_num)
  have hcfall := round1_bounds huc1 huc2 (by norm_num) (by norm_num)
  refine ⟨?_, ?_, ⟨hwfall.1, hwfall.2⟩, ⟨hcfall.1, hcfall.2⟩⟩
  · cases wresp with
    | ok main =>
      simp only [fetch_weather_risk]
      constructor
      all_goals
        split
        all_goals try split
        all_goals try split
        all_goals norm_num
    | fail =>
      simp only [fetch_weather_risk]
      exact ⟨by linarith [hwfall.1], by linarith [hwfall.2]⟩
  · cases cresp with
    | ok count =>
      simp only [fetch_war_risk]
      have hnn : (0:ℚ) ≤ (count : ℚ) * (5/100) + jitter := by positivity
      exact ⟨le_min (by norm_num) hnn, min_le_left _ _⟩
    | fail =>
      simp only [fetch_war_risk]
      exact ⟨by linarith [hcfall.1], by linarith [hcfall.2]⟩

/-- C9 witness: the theorem instantiated at a concrete success response,
a concrete failure response and concrete uniform draws. -/
theorem C9_risk_fetchers_bounded_witness :
    (0 ≤ fetch_weather_risk (.ok "Rain") (7/10) ∧
      fetch_weather_risk (.ok "Rain") (7/10) ≤ 1) ∧
    (0 ≤ fetch_war_risk (.ok 3) (1/20) (6/10) ∧
      fetch_war_risk (.ok 3) (1/20) (6/10) ≤ 1) ∧
    (6/10 ≤ fetch_weather_risk .fail (7/10) ∧
      fetch_weather_risk .fail (7/10) ≤ 9/10) ∧
    (4/10 ≤ fetch_war_risk .fail (1/20) (6/10) ∧
      fetch_war_risk .fail (1/20) (6/10) ≤ 8/10) :=
  C9_risk_fetchers_bounded (.ok "Rain") (.ok 3) (7/10) (1/20) (6/10)
    (by norm_num) (by norm_num) (by norm_num) (by norm_num) (by norm_num)
    (by norm_num)

/-- C4 counterexample: at WeatherRisk = WarRisk = 0.7, PastReliability = 1,
Capacity ratio 0 and no random event, the claimed weighted-combination
clause (equal weights 1/3) fires — the combination is 0.8 > 0.5 — yet the
label computed by the code is 0: the code has no weighted-combination term. -/
theorem C4_label_counterexample :
    claimFailureLabel (1/3) (1/3) (1/3) (7/10) (7/10) 1 0 false = 1 ∧
    failureLabel (7/10) (7/10) 1 false = 0 := by
  refine ⟨?_, ?_⟩
  · unfold claimFailureLabel
    norm_num
  · unfold failureLabel
    norm_num

/-- C4 amended: the synthesized label is 1 exactly when WeatherRisk
exceeds 0.7, or WarRisk exceeds 0.7, or PastReliability is below 0.7, or
the independent 5%-probability random event fires; no weighted-combination
clause participates (the label depends on neither Capacity nor any blend
of the factors). -/
theorem C4_label_amended (weatherRisk warRisk pastReliability : ℚ)
    (randEvent : Bool) :
    failureLabel weatherRisk warRisk pastReliability randEvent = 1 ↔
      (weatherRisk > 7/10 ∨ warRisk > 7/10 ∨ pastReliability < 7/10 ∨
        randEvent = true) := by
  unfold failureLabel
  split
  · next h => exact iff_of_true rfl h
  · next h => exact iff_of_false (by norm_num) h

/-- C4 witness: the amended label equivalence at concrete values, where
only the WeatherRisk threshold fires. -/
theorem C4_label_amended_witness :
    failureLabel (8/10) 0 1 false = 1 ↔
      ((8/10 : ℚ) > 7/10 ∨ (0 : ℚ) > 7/10 ∨ (1 : ℚ) < 7/10 ∨
        false = true) :=
  C4_label_amended (8/10) 0 1 false

/-- C5: when the raw dataset file is missing, `run_pipeline` fails with
the "not found" error and the file-system state is returned unchanged —
neither the processed table nor the model artifact is written and no
processing step runs. -/
theorem C5_missing_raw_dataset (enrich : List RawRow → List ProcRow)
    (train : List ProcRow → Model) (fs : FS) (h : fs.rawCsv = none) :
    runPipelineFS enrich train fs = (fs, .error "Raw dataset not found") := by
  unfold runPipelineFS
  rw [h]

/-- C5 witness: the theorem applied to a concrete state with no raw
dataset. -/
theorem C5_missing_raw_dataset_witness :
    runPipelineFS (fun _ => []) (fun _ _ _ _ _ _ => 0)
        ⟨none, none, none, []⟩ =
      (⟨none, none, none, []⟩, .error "Raw dataset not found") :=
  C5_missing_raw_dataset (fun _ => []) (fun _ _ _ _ _ _ => 0)
    ⟨none, none, none, []⟩ rfl

/-! ## Claims about the scoring step -/

lemma addNorms_mem_combined {rows : List ScoredRow} {r : NormedRow}
    (hr : r ∈ addNorms rows) :
    r.combinedScore = 7/10 * r.riskNorm + 3/10 * r.distNorm := by
  unfold addNorms at hr
  simp only [List.mem_map] at hr
  obtain ⟨s, _, rfl⟩ := hr
  rfl

/-- C3: the CombinedScore of every scored row is `0.7·RiskNorm + 0.3·DistNorm`,
and for two same-product rows the second one scores strictly worse
(higher) than the first exactly when its RiskNorm excess exceeds 3/7 of
its DistNorm deficit. -/
theorem C3_combined_score_weighting (rows : List ScoredRow)
    (r1 r2 : NormedRow) (h1 : r1 ∈ addNorms rows) (h2 : r2 ∈ addNorms rows)
    (hp : r1.product = r2.product) :
    r1.combinedScore = 7/10 * r1.riskNorm + 3/10 * r1.distNorm ∧
    r2.combinedScore = 7/10 * r2.riskNorm + 3/10 * r2.distNorm ∧
    (r2.combinedScore > r1.combinedScore ↔
      r2.riskNorm - r1.riskNorm > 3/7 * (r1.distNorm - r2.distNorm)) := by
  have e1 := addNorms_mem_combined h1
  have e2 := addNorms_mem_combined h2
  refine ⟨e1, e2, ?_⟩
  rw [e1, e2]
  constructor <;> intro h <;> linarith

/-- C3 witness: the theorem applied to two concrete same-product rows
(tied raw metrics, so both normalize to 0). -/
theorem C3_combined_score_weighting_witness :
    (⟨exScored "Widget" "A" (9/10) (1/2) 10, 0, 0, 0⟩ : NormedRow).combinedScore =
      7/10 * (⟨exScored "Widget" "A" (9/10) (1/2) 10, 0, 0, 0⟩ : NormedRow).riskNorm +
      3/10 * (⟨exScored "Widget" "A" (9/10) (1/2) 10, 0, 0, 0⟩ : NormedRow).distNorm ∧
    (⟨exScored "Widget" "B" (8/10) (1/2) 10, 0, 0, 0⟩ : NormedRow).combinedScore =
      7/10 * (⟨exScored "Widget" "B" (8/10) (1/2) 10, 0, 0, 0⟩ : NormedRow).riskNorm +
      3/10 * (⟨exScored "Widget" "B" (8/10) (1/2) 10, 0, 0, 0⟩ : NormedRow).distNorm ∧
    ((⟨exScored "Widget" "B" (8/10) (1/2) 10, 0, 0, 0⟩ : NormedRow).combinedScore >
        (⟨exScored "Widget" "A" (9/10) (1/2) 10, 0, 0, 0⟩ : NormedRow).combinedScore ↔
      (⟨exScored "Widget" "B" (8/10) (1/2) 10, 0, 0, 0⟩ : NormedRow).riskNorm -
          (⟨exScored "Widget" "A" (9/10) (1/2) 10, 0, 0, 0⟩ : NormedRow).riskNorm >
        3/7 * ((⟨exScored "Widget" "A" (9/10) (1/2) 10, 0, 0, 0⟩ : NormedRow).distNorm -
          (⟨exScored "Widget" "B" (8/10) (1/2) 10, 0, 0, 0⟩ : NormedRow).distNorm)) :=
  C3_combined_score_weighting
    [exScored "Widget" "A" (9/10) (1/2) 10, exScored "Widget" "B" (8/10) (1/2) 10]
    _ _
    (by simp [addNorms, exScored, exProc, listMin, listMax, normVal])
    (by simp [addNorms, exScored, exProc, listMin, listMax, normVal])
    rfl

lemma foldl_min_le_init (xs : List ℚ) (a : ℚ) : xs.foldl min a ≤ a := by
  induction xs generalizing a with
  | nil => exact le_refl a
  | cons y ys ih => exact le_trans (ih (min a y)) (min_le_left a y)

lemma foldl_min_le_mem {xs : List ℚ} {x : ℚ} (a : ℚ) (hx : x ∈ xs) :
    xs.foldl min a ≤ x := by
  induction xs generalizing a with
  | nil => cases hx
  | cons y ys ih =>
    rcases List.mem_cons.mp hx with h | h
    · subst h
      exact le_trans (foldl_min_le_init ys (min a x)) (min_le_right a x)
    · exact ih (min a y) h

lemma init_le_foldl_max (xs : List ℚ) (a : ℚ) : a ≤ xs.foldl max a := by
  induction xs generalizing a with
  | nil => exact le_refl a
  | cons y ys ih => exact le_trans (le_max_left a y) (ih (max a y))

lemma mem_le_foldl_max {xs : List ℚ} {x : ℚ} (a : ℚ) (hx : x ∈ xs) :
    x ≤ xs.foldl max a := by
  induction xs generalizing a with
  | nil => cases hx
  | cons y ys ih =>
    rcases List.mem_cons.mp hx with h | h
    · subst h
      exact le_trans (le_max_right a x) (init_le_foldl_max ys (max a x))
    · exact ih (max a y) h

lemma listMin_le_mem {l : List ℚ} {x : ℚ} (hx : x ∈ l) : listMin l ≤ x := by
  cases l with
  | nil => cases hx
  | cons y ys =>
    unfold listMin
    rcases List.mem_cons.mp hx with h | h
    · subst h; exact foldl_min_le_init ys x
    · exact foldl_min_le_mem y h

lemma mem_le_listMax {l : List ℚ} {x : ℚ} (hx : x ∈ l) : x ≤ listMax l := by
  cases l with
  | nil => cases hx
  | cons y ys =>
    unfold listMax
    rcases List.mem_cons.mp hx with h | h
    · subst h; exact init_le_foldl_max ys x
    · exact mem_le_foldl_max y h

lemma eps_pos : (0 : ℚ) < eps := by norm_num [eps]

/-- The properties of one epsilon-guarded normalized value, over the min
and max of the list the value is drawn from. -/
lemma normVal_props {l : List ℚ} {x : ℚ} (hx : x ∈ l) :
    (0 ≤ normVal (listMin l) (listMax l) x ∧
      normVal (listMin l) (listMax l) x ≤ 1) ∧
    (x = listMin l → normVal (listMin l) (listMax l) x = 0) ∧
    (x = listMax l → listMax l ≠ listMin l →
      normVal (listMin l) (listMax l) x =
        (listMax l - listMin l) / (listMax l - listMin l + eps) ∧
      normVal (listMin l) (listMax l) x < 1) ∧
    (listMax l = listMin l → normVal (listMin l) (listMax l) x = 0) := by
  have hmin := listMin_le_mem hx
  have hmax := mem_le_listMax hx
  unfold normVal
  by_cases hd : listMax l - listMin l ≠ 0
  · have hpos : 0 < listMax l - listMin l := by
      rcases lt_or_eq_of_le (le_trans hmin hmax) with h | h
      · linarith
      · exact absurd (by linarith : listMax l - listMin l = 0) hd
    have hden : 0 < listMax l - listMin l + eps := by
      have := eps_pos; linarith
    rw [if_pos hd]
    refine ⟨⟨?_, ?_⟩, ?_, ?_, ?_⟩
    · exact div_nonneg (by linarith) (le_of_lt hden)
    · rw [div_le_one hden]
      have := eps_pos; linarith
    · intro h; rw [h, sub_self, zero_div]
    · intro h _
      refine ⟨by rw [h], ?_⟩
      rw [h, div_lt_one hden]
      have := eps_pos; linarith
    · intro h; exact absurd (by rw [h, sub_self]) hd
  · rw [if_neg hd]
    push_neg at hd
    refine ⟨⟨le_refl 0, by norm_num⟩, fun _ => rfl, ?_, fun _ => rfl⟩
    intro h hne
    exact absurd (by linarith : listMax l = listMin l) hne

/-- Destructuring membership in `addNorms`: the carried scored row is in
the input, and the two normalized fields are `normVal` of the raw row
value over the min and max of the column. -/
lemma addNorms_fields {rows : List ScoredRow} {r : NormedRow}
    (hr : r ∈ addNorms rows) :
    r.toScoredRow ∈ rows ∧
    r.riskNorm = normVal (listMin (rows.map (fun s => s.failureProb)))
      (listMax (rows.map (fun s => s.failureProb))) r.failureProb ∧
    r.distNorm = normVal (listMin (rows.map (fun s => s.distanceKM)))
      (listMax (rows.map (fun s => s.distanceKM))) r.distanceKM := by
  unfold addNorms at hr
  simp only [List.mem_map] at hr
  obtain ⟨s, hs, rfl⟩ := hr
  exact ⟨hs, rfl, rfl⟩

/-- C2 counterexample: on the concrete scored rows with FailureProb 0 and
1 (identical distances), the row holding the maximum raw FailureProb gets
RiskNorm `1/(1+1e-9)`, not 1 — the epsilon denominator keeps the maximum
strictly below 1, contradicting the claim that the max row normalizes
to 1. -/
theorem C2_normalization_counterexample :
    listMax ([exScored "Widget" "A" (9/10) 0 10,
      exScored "Widget" "B" (9/10) 1 10].map (fun s => s.failureProb)) = 1 ∧
    (addNorms [exScored "Widget" "A" (9/10) 0 10,
      exScored "Widget" "B" (9/10) 1 10]).map (fun r => r.riskNorm) =
      [0, 1/(1+eps)] ∧
    (1/(1+eps) : ℚ) ≠ 1 := by
  refine ⟨?_, ?_, by norm_num [eps]⟩
  · simp [listMax, exScored, exProc]
  · simp [addNorms, exScored, exProc, listMin, listMax, normVal]

/-- C2 amended: for every non-empty scored row set, each row has RiskNorm
and DistNorm lie in [0,1]; the row holding the minimum raw value gets 0;
when all raw values of a metric are equal every row gets 0 for it; and
the row holding the maximum raw value gets
`(max−min)/(max−min+1e-9)` — strictly less than 1 (the epsilon
denominator), not 1 as claimed. -/
theorem C2_minmax_normalization_amended (rows : List ScoredRow)
    (r : NormedRow) (hr : r ∈ addNorms rows) :
    (0 ≤ r.riskNorm ∧ r.riskNorm ≤ 1 ∧ 0 ≤ r.distNorm ∧ r.distNorm ≤ 1) ∧
    (r.failureProb = listMin (rows.map (fun s => s.failureProb)) →
      r.riskNorm = 0) ∧
    (r.distanceKM = listMin (rows.map (fun s => s.distanceKM)) →
      r.distNorm = 0) ∧
    (r.failureProb = listMax (rows.map (fun s => s.failureProb)) →
      listMax (rows.map (fun s => s.failureProb)) ≠
        listMin (rows.map (fun s => s.failureProb)) →
      r.riskNorm = (listMax (rows.map (fun s => s.failureProb)) -
          listMin (rows.map (fun s => s.failureProb))) /
        (listMax (rows.map (fun s => s.failureProb)) -
          listMin (rows.map (fun s => s.failureProb)) + eps) ∧
      r.riskNorm < 1) ∧
    (r.distanceKM = listMax (rows.map (fun s => s.distanceKM)) →
      listMax (rows.map (fun s => s.distanceKM)) ≠
        listMin (rows.map (fun s => s.distanceKM)) →
      r.distNorm = (listMax (rows.map (fun s => s.distanceKM)) -
          listMin (rows.map (fun s => s.distanceKM))) /
        (listMax (rows.map (fun s => s.distanceKM)) -
          listMin (rows.map (fun s => s.distanceKM)) + eps) ∧
      r.distNorm < 1) ∧
    (listMax (rows.map (fun s => s.failureProb)) =
        listMin (rows.map (fun s => s.failureProb)) → r.riskNorm = 0) ∧
    (listMax (rows.map (fun s => s.distanceKM)) =
        listMin (rows.map (fun s => s.distanceKM)) → r.distNorm = 0) := by
  obtain ⟨hmem, hrn, hdn⟩ := addNorms_fields hr
  have hfp : r.failureProb ∈ rows.map (fun s => s.failureProb) := by
    simp only [List.mem_map]
    exact ⟨r.toScoredRow, hmem, rfl⟩
  have hdk : r.distanceKM ∈ rows.map (fun s => s.distanceKM) := by
    simp only [List.mem_map]
    exact ⟨r.toScoredRow, hmem, rfl⟩
  obtain ⟨⟨hfb1, hfb2⟩, hfmin, hfmax, hfeq⟩ := normVal_props hfp
  obtain ⟨⟨hdb1, hdb2⟩, hdmin, hdmax, hdeq⟩ := normVal_props hdk
  rw [hrn, hdn]
  exact ⟨⟨hfb1, hfb2, hdb1, hdb2⟩, hfmin, hdmin, hfmax, hdmax, hfeq, hdeq⟩

/-- C2 witness: the amended theorem applied to the min-FailureProb row of
a concrete two-row table. -/
theorem C2_minmax_normalization_amended_witness :
    ((0:ℚ) ≤ (⟨exScored "Widget" "A" (9/10) 0 10, 0, 0, 0⟩ :
        NormedRow).riskNorm ∧
      (⟨exScored "Widget" "A" (9/10) 0 10, 0, 0, 0⟩ :
        NormedRow).riskNorm ≤ 1 ∧
      (0:ℚ) ≤ (⟨exScored "Widget" "A" (9/10) 0 10, 0, 0, 0⟩ :
        NormedRow).distNorm ∧
      (⟨exScored "Widget" "A" (9/10) 0 10, 0, 0, 0⟩ :
        NormedRow).distNorm ≤ 1) ∧
    ((⟨exScored "Widget" "A" (9/10) 0 10, 0, 0, 0⟩ :
        NormedRow).failureProb =
      listMin ([exScored "Widget" "A" (9/10) 0 10,
        exScored "Widget" "B" (9/10) 1 10].map (fun s => s.failureProb)) →
      (⟨exScored "Widget" "A" (9/10) 0 10, 0, 0, 0⟩ :
        NormedRow).riskNorm = 0) ∧
    ((⟨exScored "Widget" "A" (9/10) 0 10, 0, 0, 0⟩ :
        NormedRow).distanceKM =
      listMin ([exScored "Widget" "A" (9/10) 0 10,
        exScored "Widget" "B" (9/10) 1 10].map (fun s => s.distanceKM)) →
      (⟨exScored "Widget" "A" (9/10) 0 10, 0, 0, 0⟩ :
        NormedRow).distNorm = 0) ∧
    ((⟨exScored "Widget" "A" (9/10) 0 10, 0, 0, 0⟩ :
        NormedRow).failureProb =
      listMax ([exScored "Widget" "A" (9/10) 0 10,
        exScored "Widget" "B" (9/10) 1 10].map (fun s => s.failureProb)) →
      listMax ([exScored "Widget" "A" (9/10) 0 10,
        exScored "Widget" "B" (9/10) 1 10].map (fun s => s.failureProb)) ≠
        listMin ([exScored "Widget" "A" (9/10) 0 10,
          exScored "Widget" "B" (9/10) 1 10].map (fun s => s.failureProb)) →
      (⟨exScored "Widget" "A" (9/10) 0 10, 0, 0, 0⟩ :
          NormedRow).riskNorm =
        (listMax ([exScored "Widget" "A" (9/10) 0 10,
            exScored "Widget" "B" (9/10) 1 10].map (fun s => s.failureProb)) -
          listMin ([exScored "Widget" "A" (9/10) 0 10,
            exScored "Widget" "B" (9/10) 1 10].map (fun s => s.failureProb))) /
        (listMax ([exScored "Widget" "A" (9/10) 0 10,
            exScored "Widget" "B" (9/10) 1 10].map (fun s => s.failureProb)) -
          listMin ([exScored "Widget" "A" (9/10) 0 10,
            exScored "Widget" "B" (9/10) 1 10].map (fun s => s.failureProb)) +
          eps) ∧
      (⟨exScored "Widget" "A" (9/10) 0 10, 0, 0, 0⟩ :
        NormedRow).riskNorm < 1) ∧
    ((⟨exScored "Widget" "A" (9/10) 0 10, 0, 0, 0⟩ :
        NormedRow).distanceKM =
      listMax ([exScored "Widget" "A" (9/10) 0 10,
        exScored "Widget" "B" (9/10) 1 10].map (fun s => s.distanceKM)) →
      listMax ([exScored "Widget" "A" (9/10) 0 10,
        exScored "Widget" "B" (9/10) 1 10].map (fun s => s.distanceKM)) ≠
        listMin ([exScored "Widget" "A" (9/10) 0 10,
          exScored "Widget" "B" (9/10) 1 10].map (fun s => s.distanceKM)) →
      (⟨exScored "Widget" "A" (9/10) 0 10, 0, 0, 0⟩ :
          NormedRow).distNorm =
        (listMax ([exScored "Widget" "A" (9/10) 0 10,
            exScored "Widget" "B" (9/10) 1 10].map (fun s => s.distanceKM)) -
          listMin ([exScored "Widget" "A" (9/10) 0 10,
            exScored "Widget" "B" (9/10) 1 10].map (fun s => s.distanceKM))) /
        (listMax ([exScored "Widget" "A" (9/10) 0 10,
            exScored "Widget" "B" (9/10) 1 10].map (fun s => s.distanceKM)) -
          listMin ([exScored "Widget" "A" (9/10) 0 10,
            exScored "Widget" "B" (9/10) 1 10].map (fun s => s.distanceKM)) +
          eps) ∧
      (⟨exScored "Widget" "A" (9/10) 0 10, 0, 0, 0⟩ :
        NormedRow).distNorm < 1) ∧
    (listMax ([exScored "Widget" "A" (9/10) 0 10,
        exScored "Widget" "B" (9/10) 1 10].map (fun s => s.failureProb)) =
      listMin ([exScored "Widget" "A" (9/10) 0 10,
        exScored "Widget" "B" (9/10) 1 10].map (fun s => s.failureProb)) →
      (⟨exScored "Widget" "A" (9/10) 0 10, 0, 0, 0⟩ :
        NormedRow).riskNorm = 0) ∧
    (listMax ([exScored "Widget" "A" (9/10) 0 10,
        exScored "Widget" "B" (9/10) 1 10].map (fun s => s.distanceKM)) =
      listMin ([exScored "Widget" "A" (9/10) 0 10,
        exScored "Widget" "B" (9/10) 1 10].map (fun s => s.distanceKM)) →
      (⟨exScored "Widget" "A" (9/10) 0 10, 0, 0, 0⟩ :
        NormedRow).distNorm = 0) :=
  C2_minmax_normalization_amended
    [exScored "Widget" "A" (9/10) 0 10, exScored "Widget" "B" (9/10) 1 10]
    ⟨exScored "Widget" "A" (9/10) 0 10, 0, 0, 0⟩
    (by simp [addNorms, exScored, exProc, listMin, listMax, normVal])

lemma scoreRelLe_iff (a b : NormedRow) : scoreRelLe a b = true ↔
    (a.combinedScore < b.combinedScore ∨
      (a.combinedScore = b.combinedScore ∧
        b.pastReliability ≤ a.pastReliability)) := by
  simp [scoreRelLe, Bool.or_eq_true, Bool.and_eq_true, decide_eq_true_eq]

lemma scoreRelLe_refl (a : NormedRow) : scoreRelLe a a = true :=
  (scoreRelLe_iff a a).mpr (Or.inr ⟨rfl, le_refl _⟩)

lemma scoreRelLe_trans : ∀ a b c : NormedRow, scoreRelLe a b = true →
    scoreRelLe b c = true → scoreRelLe a c = true := by
  intro a b c hab hbc
  rw [scoreRelLe_iff] at hab hbc ⊢
  rcases hab with h1 | ⟨h1, h1r⟩ <;> rcases hbc with h2 | ⟨h2, h2r⟩
  · exact Or.inl (lt_trans h1 h2)
  · exact Or.inl (h2 ▸ h1)
  · exact Or.inl (h1 ▸ h2)
  · exact Or.inr ⟨h1.trans h2, le_trans h2r h1r⟩

lemma scoreRelLe_total : ∀ a b : NormedRow,
    (scoreRelLe a b || scoreRelLe b a) = true := by
  intro a b
  rw [Bool.or_eq_true, scoreRelLe_iff, scoreRelLe_iff]
  rcases lt_trichotomy a.combinedScore b.combinedScore with h | h | h
  · exact Or.inl (Or.inl h)
  · rcases le_total b.pastReliability a.pastReliability with hr | hr
    · exact Or.inl (Or.inr ⟨h, hr⟩)
    · exact Or.inr (Or.inr ⟨h.symm, hr⟩)
  · exact Or.inr (Or.inl h)

lemma scoreRelLe_spec {a b : NormedRow} (h : scoreRelLe a b = true) :
    a.combinedScore ≤ b.combinedScore ∧
    (b.combinedScore = a.combinedScore →
      b.pastReliability ≤ a.pastReliability) := by
  rw [scoreRelLe_iff] at h
  rcases h with h | ⟨h1, h2⟩
  · exact ⟨le_of_lt h, fun he => absurd (he ▸ h) (lt_irrefl _)⟩
  · exact ⟨le_of_eq h1, fun _ => h2⟩

/-- The one row kept by `get_best_for_product` is a row of the group and
sorts no worse than every row of the group. -/
lemma get_best_for_product_spec {group : List NormedRow} {b : NormedRow}
    (hb : b ∈ get_best_for_product group) :
    b ∈ group ∧ ∀ r ∈ group, scoreRelLe b r = true := by
  unfold get_best_for_product at hb
  cases hs : group.mergeSort scoreRelLe with
  | nil =>
    rw [hs] at hb
    cases hb
  | cons h t =>
    rw [hs] at hb
    have hbh : b = h := by simpa using hb
    subst hbh
    have hsorted := List.sorted_mergeSort scoreRelLe_trans scoreRelLe_total group
    rw [hs] at hsorted
    constructor
    · exact List.mem_mergeSort.mp (hs ▸ List.mem_cons_self b t)
    · intro r hr
      have hrm : r ∈ group.mergeSort scoreRelLe := List.mem_mergeSort.mpr hr
      rw [hs] at hrm
      rcases List.mem_cons.mp hrm with h1 | h1
      · exact h1 ▸ scoreRelLe_refl b
      · exact (List.pairwise_cons.mp hsorted).1 r h1

lemma mem_uniqueFirstAux {α : Type} [DecidableEq α] (l : List α) :
    ∀ (seen : List α) (x : α),
      x ∈ uniqueFirstAux seen l ↔ x ∈ l ∧ x ∉ seen := by
  induction l with
  | nil => intro seen x; simp [uniqueFirstAux]
  | cons y ys ih =>
    intro seen x
    by_cases hy : y ∈ seen
    · rw [show uniqueFirstAux seen (y :: ys) = uniqueFirstAux seen ys by
        simp [uniqueFirstAux, hy], ih]
      constructor
      · rintro ⟨h1, h2⟩
        exact ⟨List.mem_cons_of_mem y h1, h2⟩
      · rintro ⟨h1, h2⟩
        rcases List.mem_cons.mp h1 with h3 | h3
        · exact absurd (h3 ▸ hy) h2
        · exact ⟨h3, h2⟩
    · rw [show uniqueFirstAux seen (y :: ys) =
          y :: uniqueFirstAux (y :: seen) ys by simp [uniqueFirstAux, hy]]
      constructor
      · intro h1
        rcases List.mem_cons.mp h1 with h3 | h3
        · subst h3
          exact ⟨List.mem_cons_self x ys, hy⟩
        · have h4 := (ih (y :: seen) x).mp h3
          exact ⟨List.mem_cons_of_mem y h4.1,
            fun hc => h4.2 (List.mem_cons_of_mem y hc)⟩
      · rintro ⟨h1, h2⟩
        by_cases hxy : x = y
        · exact hxy ▸ List.mem_cons_self x _
        · rcases List.mem_cons.mp h1 with h3 | h3
          · exact absurd h3 hxy
          · refine List.mem_cons_of_mem y ((ih (y :: seen) x).mpr ⟨h3, ?_⟩)
            intro hc
            rcases List.mem_cons.mp hc with h4 | h4
            · exact hxy h4
            · exact h2 h4

lemma nodup_uniqueFirstAux {α : Type} [DecidableEq α] (l : List α) :
    ∀ seen : List α, (uniqueFirstAux seen l).Nodup := by
  induction l with
  | nil => intro seen; simp [uniqueFirstAux]
  | cons y ys ih =>
    intro seen
    by_cases hy : y ∈ seen
    · rw [show uniqueFirstAux seen (y :: ys) = uniqueFirstAux seen ys by
        simp [uniqueFirstAux, hy]]
      exact ih seen
    · rw [show uniqueFirstAux seen (y :: ys) =
          y :: uniqueFirstAux (y :: seen) ys by simp [uniqueFirstAux, hy]]
      refine List.nodup_cons.mpr ⟨?_, ih (y :: seen)⟩
      intro hc
      exact ((mem_uniqueFirstAux ys (y :: seen) y).mp hc).2
        (List.mem_cons_self y seen)

lemma mem_uniqueFirst {α : Type} [DecidableEq α] {l : List α} {x : α} :
    x ∈ uniqueFirst l ↔ x ∈ l := by
  rw [uniqueFirst, mem_uniqueFirstAux]
  simp

lemma mem_productKeys {rows : List NormedRow} {p : String} :
    p ∈ productKeys rows ↔ p ∈ rows.map (fun r => r.product) := by
  rw [productKeys, List.mem_mergeSort, mem_uniqueFirst]

lemma nodup_productKeys (rows : List NormedRow) :
    (productKeys rows).Nodup :=
  ((List.mergeSort_perm _ _).nodup_iff).mpr (nodup_uniqueFirstAux _ [])

lemma flatMap_filter_length_one {ps : List String} {p : String}
    (f : String → List NormedRow) (hnd : ps.Nodup) (hp : p ∈ ps)
    (hfp : (f p).length = 1) (hfq : ∀ q ∈ ps, q ≠ p → f q = []) :
    (ps.flatMap f).length = 1 := by
  induction ps with
  | nil => cases hp
  | cons q qs ih =>
    rw [List.flatMap_cons, List.length_append]
    rcases List.mem_cons.mp hp with h | h
    · subst h
      have hqs : qs.flatMap f = [] := by
        rw [List.flatMap_eq_nil_iff]
        intro x hx
        exact hfq x (List.mem_cons_of_mem _ hx)
          (fun he => (List.nodup_cons.mp hnd).1 (he ▸ hx))
      rw [hqs, hfp]
      rfl
    · have hqp : q ≠ p := fun he => (List.nodup_cons.mp hnd).1 (he ▸ h)
      rw [hfq q (List.mem_cons_self q qs) hqp]
      simp only [List.length_nil, Nat.zero_add]
      exact ih (List.nodup_cons.mp hnd).2 h
        (fun q1 hq1 => hfq q1 (List.mem_cons_of_mem _ hq1))

/-- C1: for every product present in the scored table, the per-product
selection keeps exactly one row of that product; that row is a row of the
table, its CombinedScore is ≤ the CombinedScore of every same-product row,
and every same-product row tied on CombinedScore has PastReliability ≤
that of the selected row. -/
theorem C1_unique_best_per_product (rows : List NormedRow) (p : String)
    (hp : p ∈ rows.map (fun r => r.product)) :
    ((bestByProduct rows).filter (fun b => b.product == p)).length = 1 ∧
    ∀ b ∈ bestByProduct rows, b.product = p →
      b ∈ rows ∧ ∀ r ∈ rows, r.product = p →
        b.combinedScore ≤ r.combinedScore ∧
        (r.combinedScore = b.combinedScore →
          r.pastReliability ≤ b.pastReliability) := by
  constructor
  · rw [bestByProduct, List.filter_flatMap]
    apply flatMap_filter_length_one _ (nodup_productKeys rows)
      (mem_productKeys.mpr hp)
    · obtain ⟨r0, hr0, hr0p⟩ := List.mem_map.mp hp
      have hgrp : r0 ∈ rows.filter (fun r => r.product == p) :=
        List.mem_filter.mpr ⟨hr0, by simp [hr0p]⟩
      cases hs : (rows.filter (fun r => r.product == p)).mergeSort scoreRelLe
        with
      | nil =>
        have : r0 ∈ ([] : List NormedRow) :=
          hs ▸ List.mem_mergeSort.mpr hgrp
        cases this
      | cons b t =>
        have hb : b ∈ get_best_for_product
            (rows.filter (fun r => r.product == p)) := by
          rw [get_best_for_product, hs]
          simp
        have hbp : b.product = p := by
          have := List.of_mem_filter (get_best_for_product_spec hb).1
          simpa using this
        rw [get_best_for_product, hs]
        simp [hbp]
    · intro q _ hqp
      rw [List.filter_eq_nil_iff]
      intro b hb
      have hbq : b.product = q := by
        have := List.of_mem_filter (get_best_for_product_spec hb).1
        simpa using this
      simp [hbq, hqp]
  · intro b hb hbp
    obtain ⟨q, _, hbq⟩ := List.mem_flatMap.mp hb
    obtain ⟨hbg, hmin⟩ := get_best_for_product_spec hbq
    refine ⟨List.mem_of_mem_filter hbg, ?_⟩
    intro r hr hrp
    have hrg : r ∈ rows.filter (fun s => s.product == q) := by
      have hq : q = p := by
        have := List.of_mem_filter hbg
        simp only [beq_iff_eq] at this
        rw [← this, hbp]
      exact List.mem_filter.mpr ⟨hr, by simp [hrp, hq]⟩
    exact scoreRelLe_spec (hmin r hrg)

/-- C1 witness: the theorem applied to a concrete two-product table. -/
theorem C1_unique_best_per_product_witness :
    ((bestByProduct [⟨exScored "Widget" "A" (9/10) (1/2) 10, 0, 0, 0⟩,
        ⟨exScored "Widget" "B" (8/10) (1/2) 10, 0, 0, 1/10⟩,
        ⟨exScored "Gear" "C" (8/10) (1/2) 10, 0, 0, 0⟩]).filter
      (fun b => b.product == "Widget")).length = 1 ∧
    ∀ b ∈ bestByProduct [⟨exScored "Widget" "A" (9/10) (1/2) 10, 0, 0, 0⟩,
        ⟨exScored "Widget" "B" (8/10) (1/2) 10, 0, 0, 1/10⟩,
        ⟨exScored "Gear" "C" (8/10) (1/2) 10, 0, 0, 0⟩],
      b.product = "Widget" →
      b ∈ ([⟨exScored "Widget" "A" (9/10) (1/2) 10, 0, 0, 0⟩,
        ⟨exScored "Widget" "B" (8/10) (1/2) 10, 0, 0, 1/10⟩,
        ⟨exScored "Gear" "C" (8/10) (1/2) 10, 0, 0, 0⟩] : List NormedRow) ∧
      ∀ r ∈ ([⟨exScored "Widget" "A" (9/10) (1/2) 10, 0, 0, 0⟩,
        ⟨exScored "Widget" "B" (8/10) (1/2) 10, 0, 0, 1/10⟩,
        ⟨exScored "Gear" "C" (8/10) (1/2) 10, 0, 0, 0⟩] : List NormedRow),
        r.product = "Widget" →
        b.combinedScore ≤ r.combinedScore ∧
        (r.combinedScore = b.combinedScore →
          r.pastReliability ≤ b.pastReliability) :=
  C1_unique_best_per_product
    [⟨exScored "Widget" "A" (9/10) (1/2) 10, 0, 0, 0⟩,
      ⟨exScored "Widget" "B" (8/10) (1/2) 10, 0, 0, 1/10⟩,
      ⟨exScored "Gear" "C" (8/10) (1/2) 10, 0, 0, 0⟩]
    "Widget" (by simp [exScored, exProc])

/-! ## Claims about DC resolution and the query path -/

lemma validDcCity_nil (dc_city : Option String) :
    validDcCity dc_city [] = false := by
  cases dc_city with
  | none => rfl
  | some c => simp [validDcCity]

/-- C6: whenever no distribution center is resolvable — no warehouse
candidate cities exist, or every candidate coincides with some supplier
city while no valid explicit city was given — the query does not fail: it
returns an empty best-supplier list together with the full (unscored)
supplier table, the unique-cities list and the warehouses list. -/
theorem C6_no_dc_graceful_empty (dist : ℚ → ℚ → ℚ → ℚ → ℚ)
    (dc_city : Option String) (df : List ProcRow)
    (warehousesDf : List Warehouse) (model : Model)
    (h : uniqueCitiesOf warehousesDf = [] ∨
      ((∀ c ∈ uniqueCitiesOf warehousesDf, c ∈ supplierCitiesOf df) ∧
        validDcCity dc_city (uniqueCitiesOf warehousesDf) = false)) :
    queryBody dist dc_city df warehousesDf model =
      { best_suppliers := [], all_suppliers := .plain df,
        unique_cities := uniqueCitiesOf warehousesDf,
        warehouses := indiaWarehouses warehousesDf } := by
  have hdc : resolveDC dc_city (uniqueCitiesOf warehousesDf)
      (indiaWarehouses warehousesDf) (supplierCitiesOf df) = none := by
    rcases h with h | ⟨hall, hvalid⟩
    · rw [resolveDC.eq_def, h, validDcCity_nil]
      simp
    · rw [resolveDC.eq_def, hvalid]
      simp only [Bool.false_eq_true, if_false]
      by_cases he : (uniqueCitiesOf warehousesDf).isEmpty
      · rw [if_pos he]
      · rw [if_neg he]
        have hfilter : (uniqueCitiesOf warehousesDf).filter
            (fun city => !((supplierCitiesOf df).contains city)) = [] := by
          rw [List.filter_eq_nil_iff]
          intro a ha
          simp only [Bool.not_eq_true', Bool.not_eq_false]
          exact List.elem_eq_true_of_mem (hall a ha)
        rw [hfilter]
        rfl
  unfold queryBody
  rw [hdc]

/-- C6 witness: the theorem at a concrete state where the only India
warehouse city coincides with the only supplier city and the explicit
city is not a warehouse city. -/
theorem C6_no_dc_graceful_empty_witness :
    queryBody (fun _ _ _ _ => 0) (some "Delhi") [exProc "Widget" "Mumbai" (9/10)]
      [⟨"Mumbai", "India", 19, 72⟩] (fun _ _ _ _ _ => 0) =
      { best_suppliers := [],
        all_suppliers := .plain [exProc "Widget" "Mumbai" (9/10)],
        unique_cities := uniqueCitiesOf [⟨"Mumbai", "India", 19, 72⟩],
        warehouses := indiaWarehouses [⟨"Mumbai", "India", 19, 72⟩] } :=
  C6_no_dc_graceful_empty (fun _ _ _ _ => 0) (some "Delhi")
    [exProc "Widget" "Mumbai" (9/10)] [⟨"Mumbai", "India", 19, 72⟩]
    (fun _ _ _ _ _ => 0)
    (Or.inr ⟨by decide, by decide⟩)

lemma runPipelineFS_fst_warehouses (enrich : List RawRow → List ProcRow)
    (train : List ProcRow → Model) (fs : FS) :
    ((runPipelineFS enrich train fs).1).warehousesCsv = fs.warehousesCsv := by
  rcases hfs : fs.rawCsv with _ | raw <;> simp [runPipelineFS, hfs]

lemma step_fst_warehouses {enrich : List RawRow → List ProcRow}
    {train : List ProcRow → Model} {fs fs1 : FS} {r1 : Except String Unit}
    {cond : Bool}
    (h : (if cond then runPipelineFS enrich train fs else (fs, .ok ())) =
      (fs1, r1)) :
    fs1.warehousesCsv = fs.warehousesCsv := by
  cases cond with
  | false =>
    rw [if_neg (by norm_num)] at h
    cases h
    rfl
  | true =>
    rw [if_pos rfl] at h
    have := congrArg (fun p => (Prod.fst p).warehousesCsv) h
    simpa [runPipelineFS_fst_warehouses] using this.symm

lemma queryBody_invalid_city (dist : ℚ → ℚ → ℚ → ℚ → ℚ) (c : String)
    (df : List ProcRow) (warehousesDf : List Warehouse) (model : Model)
    (hc : c ∉ uniqueCitiesOf warehousesDf) :
    queryBody dist (some c) df warehousesDf model =
      queryBody dist none df warehousesDf model := by
  have hv : validDcCity (some c) (uniqueCitiesOf warehousesDf) = false := by
    simp only [validDcCity, Bool.and_eq_false_iff]
    right
    simpa using hc
  have hres : resolveDC (some c) (uniqueCitiesOf warehousesDf)
      (indiaWarehouses warehousesDf) (supplierCitiesOf df) =
      resolveDC none (uniqueCitiesOf warehousesDf)
        (indiaWarehouses warehousesDf) (supplierCitiesOf df) := by
    rw [resolveDC.eq_def, resolveDC.eq_def, hv]
    rfl
  unfold queryBody
  rw [hres]

/-- C10: an explicit `dc_city` that is not among the India-filtered
warehouse cities is silently ignored: the query behaves exactly as if no
`dc_city` had been supplied (default selection rule), rather than using
the requested city or raising an error. -/
theorem C10_unknown_dc_city_ignored (dist : ℚ → ℚ → ℚ → ℚ → ℚ)
    (enrich : List RawRow → List ProcRow) (train : List ProcRow → Model)
    (c : String) (fs : FS) (hc : c ∉ uniqueCitiesOf fs.warehousesCsv) :
    getBestSuppliers dist enrich train (some c) fs =
      getBestSuppliers dist enrich train none fs := by
  unfold getBestSuppliers
  split
  · rfl
  rename_i fs1 u heq1
  split
  · rfl
  rename_i fs2 u2 heq2
  split
  · rename_i df m hdf hm
    have hw1 : fs1.warehousesCsv = fs.warehousesCsv := step_fst_warehouses heq1
    have hw2 : fs2.warehousesCsv = fs1.warehousesCsv := step_fst_warehouses heq2
    have hqb : queryBody dist (some c) df fs2.warehousesCsv m =
        queryBody dist none df fs2.warehousesCsv m := by
      apply queryBody_invalid_city
      rw [hw2, hw1]
      exact hc
    rw [hqb]
  · rfl

/-- C10 witness: the theorem at a concrete state whose warehouse table
has one India city, with the explicit city absent from it. -/
theorem C10_unknown_dc_city_ignored_witness :
    getBestSuppliers (fun _ _ _ _ => 0) (fun _ => [])
      (fun _ => fun _ _ _ _ _ => 0) (some "Paris")
      ⟨none, some [exProc "Widget" "Mumbai" (9/10)],
        some (fun _ _ _ _ _ => 0), [⟨"Pune", "India", 18, 73⟩]⟩ =
    getBestSuppliers (fun _ _ _ _ => 0) (fun _ => [])
      (fun _ => fun _ _ _ _ _ => 0) none
      ⟨none, some [exProc "Widget" "Mumbai" (9/10)],
        some (fun _ _ _ _ _ => 0), [⟨"Pune", "India", 18, 73⟩]⟩ :=
  C10_unknown_dc_city_ignored (fun _ _ _ _ => 0) (fun _ => [])
    (fun _ => fun _ _ _ _ _ => 0) "Paris"
    ⟨none, some [exProc "Widget" "Mumbai" (9/10)],
      some (fun _ _ _ _ _ => 0), [⟨"Pune", "India", 18, 73⟩]⟩
    (by decide)

/-- C8: when the persisted processed table and model artifact both exist,
`get_best_suppliers` never invokes the (randomized) pipeline: any two
invocations on that same state — whatever enrichment and training
behavior the pipeline would have had — return identical results (same
CombinedScore column and same best-supplier selection inside the one
`QueryResult`), and the file-system state is left unchanged. -/
theorem C8_query_path_deterministic (dist : ℚ → ℚ → ℚ → ℚ → ℚ)
    (dc_city : Option String) (fs : FS) (df : List ProcRow) (m : Model)
    (e1 e2 : List RawRow → List ProcRow) (t1 t2 : List ProcRow → Model)
    (h1 : fs.processedCsv = some df) (h2 : fs.modelFile = some m) :
    getBestSuppliers dist e1 t1 dc_city fs =
      getBestSuppliers dist e2 t2 dc_city fs ∧
    (getBestSuppliers dist e1 t1 dc_city fs).1 = fs := by
  obtain ⟨raw, pc, mf, wh⟩ := fs
  have h1a : pc = some df := h1
  have h2a : mf = some m := h2
  subst h1a
  subst h2a
  have key : ∀ (e : List RawRow → List ProcRow) (t : List ProcRow → Model),
      getBestSuppliers dist e t dc_city ⟨raw, some df, some m, wh⟩ =
        (⟨raw, some df, some m, wh⟩,
          Except.ok (queryBody dist dc_city df wh m)) :=
    fun e t => rfl
  exact ⟨(key e1 t1).trans (key e2 t2).symm, by rw [key e1 t1]⟩

/-- C8 witness: the theorem at a concrete state holding both artifacts,
with two pipelines that would behave differently if they ran. -/
theorem C8_query_path_deterministic_witness :
    getBestSuppliers (fun _ _ _ _ => 0) (fun _ => [])
        (fun _ => fun _ _ _ _ _ => 0) none
        ⟨none, some [exProc "Widget" "Mumbai" (9/10)],
          some (fun _ _ _ _ _ => 1/2), [⟨"Pune", "India", 18, 73⟩]⟩ =
      getBestSuppliers (fun _ _ _ _ => 0)
        (fun _ => [exProc "Gear" "Delhi" (8/10)])
        (fun _ => fun _ _ _ _ _ => 1) none
        ⟨none, some [exProc "Widget" "Mumbai" (9/10)],
          some (fun _ _ _ _ _ => 1/2), [⟨"Pune", "India", 18, 73⟩]⟩ ∧
    (getBestSuppliers (fun _ _ _ _ => 0) (fun _ => [])
        (fun _ => fun _ _ _ _ _ => 0) none
        ⟨none, some [exProc "Widget" "Mumbai" (9/10)],
          some (fun _ _ _ _ _ => 1/2), [⟨"Pune", "India", 18, 73⟩]⟩).1 =
      ⟨none, some [exProc "Widget" "Mumbai" (9/10)],
        some (fun _ _ _ _ _ => 1/2), [⟨"Pune", "India", 18, 73⟩]⟩ :=
  C8_query_path_deterministic (fun _ _ _ _ => 0) none
    ⟨none, some [exProc "Widget" "Mumbai" (9/10)],
      some (fun _ _ _ _ _ => 1/2), [⟨"Pune", "India", 18, 73⟩]⟩
    [exProc "Widget" "Mumbai" (9/10)] (fun _ _ _ _ _ => 1/2)
    (fun _ => []) (fun _ => [exProc "Gear" "Delhi" (8/10)])
    (fun _ => fun _ _ _ _ _ => 0) (fun _ => fun _ _ _ _ _ => 1)
    rfl rfl

end SupplierPredictor
